import Mathlib

/-!
Verification of `src/frontend/vite.config.mjs`: a build-configuration
provider that maps an environment mode string (and the configuration
file's directory, Node's `__dirname`) to an immutable configuration
record consumed by the Vite build tool.
-/

namespace ViteConfigSpec

/-- Model of a plugin handle; the source registers one instance of the
`@tailwindcss/vite` plugin, identified here by its package name. -/
structure Plugin where
  name : String
deriving Repr, DecidableEq

/-- Model of the plugin factory call `tailwindcss()` from `@tailwindcss/vite`. -/
def tailwindcss : Plugin := { name := "@tailwindcss/vite" }

/-- The `server` block of the returned record. -/
structure ServerConfig where
  host : String
  port : Nat
  strictPort : Bool
  origin : String
deriving Repr, DecidableEq

/-- The `rollupOptions` block nested inside `build`. -/
structure RollupOptions where
  main : String
deriving Repr, DecidableEq

/-- The `build` block of the returned record. -/
structure BuildConfig where
  manifest : Bool
  outDir : String
  emptyOutDir : Bool
  rollupOptions : RollupOptions
deriving Repr, DecidableEq

/-- The `resolve` block: an alias mapping from alias token to filesystem path. -/
structure ResolveConfig where
  «alias» : List (String × String)
deriving Repr, DecidableEq

/-- The full configuration record returned by the provider. -/
structure ViteConfig where
  base : String
  plugins : List Plugin
  server : ServerConfig
  build : BuildConfig
  resolve : ResolveConfig
deriving Repr, DecidableEq

/-- Split a character list into its non-empty `/`-separated segments;
`acc` holds the characters of the current segment in reverse. -/
def splitPathAux : List Char → List Char → List String
  | [], acc => if acc = [] then [] else [String.mk acc.reverse]
  | c :: cs, acc =>
    if c = '/' then
      if acc = [] then splitPathAux cs []
      else String.mk acc.reverse :: splitPathAux cs []
    else splitPathAux cs (c :: acc)

/-- Split a path into its non-empty `/`-separated segments. -/
def splitPath (s : String) : List String :=
  splitPathAux s.toList []

/-- Join path segments with `/` separators. -/
def joinSegs : List String → String
  | [] => ""
  | [s] => s
  | s :: rest => s ++ "/" ++ joinSegs rest

/-- Whether a path is absolute, i.e. starts with `/`. -/
def isAbsolute (p : String) : Bool :=
  match p.toList with
  | [] => false
  | c :: _ => c = '/'

/-- One step of Node path normalization: `.` is dropped, `..` pops the
last segment (clamped at the root), any other segment is appended. -/
def normStep (acc : List String) (seg : String) : List String :=
  if seg = "." then acc
  else if seg = ".." then acc.dropLast
  else acc ++ [seg]

/-- Normalize a segment list by folding `normStep` from the left. -/
def normSegs (segs : List String) : List String :=
  segs.foldl normStep []

/-- Model of Node's `path.resolve(dir, p)` for an absolute `dir` (as
`__dirname` always is under Node): if `p` is absolute it wins, otherwise
`p` is joined onto `dir`; the result is normalized and rooted at `/`. -/
def pathResolve (dir p : String) : String :=
  let segs := if isAbsolute p then splitPath p else splitPath dir ++ splitPath p
  "/" ++ joinSegs (normSegs segs)

/-- The local `devOrigin` binding of the source: the dev-server origin
URL in development mode, the empty string otherwise. -/
def devOrigin (mode : String) : String :=
  if mode == "development" then "http://localhost:5173" else ""

/-- The default export of `vite.config.mjs`: the `defineConfig` callback,
a pure function of the context's `mode` field (with the configuration
file's directory `__dirname` made an explicit parameter). -/
def viteConfig (mode : String) (dirname : String) : ViteConfig :=
  let devHost := "localhost"
  let devPort : Nat := 5173
  { base := devOrigin mode ++ "/static/"
    plugins := [tailwindcss]
    server :=
      { host := devHost
        port := devPort
        strictPort := true
        origin := devOrigin mode }
    build :=
      { manifest := true
        outDir := "./dist/"
        emptyOutDir := true
        rollupOptions := { main := "./src/main.js" } }
    resolve :=
      { «alias» := [("@", pathResolve dirname "./src")] } }

/-- String append is associative (via the underlying character lists). -/
theorem str_append_assoc (a b c : String) :
    (a ++ b) ++ c = a ++ (b ++ c) := by
  apply String.ext
  simp [String.data_append, List.append_assoc]

/-- Folding `normStep` over a segment list containing no `.` or `..`
appends the list to the accumulator unchanged. -/
theorem foldl_normStep_no_dots (l : List String) (acc : List String)
    (h : ∀ s ∈ l, s ≠ "." ∧ s ≠ "..") :
    l.foldl normStep acc = acc ++ l := by
  induction l generalizing acc with
  | nil => simp
  | cons x xs ih =>
    have hx := h x (by simp)
    have hxs : ∀ s ∈ xs, s ≠ "." ∧ s ≠ ".." := fun s hs => h s (by simp [hs])
    simp only [List.foldl_cons]
    rw [show normStep acc x = acc ++ [x] from by simp [normStep, hx.1, hx.2]]
    rw [ih (acc ++ [x]) hxs]
    simp

/-- Appending one segment to a non-empty segment list joins it with a
final `/` separator. -/
theorem joinSegs_append_singleton (l : List String) (hne : l ≠ []) (s : String) :
    joinSegs (l ++ [s]) = joinSegs l ++ "/" ++ s := by
  induction l with
  | nil => exact absurd rfl hne
  | cons x xs ih =>
    cases xs with
    | nil => simp [joinSegs]
    | cons y ys =>
      have h := ih (by simp)
      simp only [List.cons_append] at h ⊢
      rw [show joinSegs (x :: y :: (ys ++ [s]))
            = x ++ "/" ++ joinSegs (y :: (ys ++ [s])) from rfl]
      rw [h]
      rw [show joinSegs (x :: y :: ys) = x ++ "/" ++ joinSegs (y :: ys) from rfl]
      simp only [str_append_assoc]

/-- Resolving the relative path `./src` against an absolute directory in
canonical form appends the segment `src` to it. -/
theorem pathResolve_src (dir : String)
    (hnorm : ∀ s ∈ splitPath dir, s ≠ "." ∧ s ≠ "..")
    (hcanon : dir = "/" ++ joinSegs (splitPath dir))
    (hne : splitPath dir ≠ []) :
    pathResolve dir "./src" = dir ++ "/src" := by
  have hsplit : splitPath "./src" = [".", "src"] := by decide
  have habs : isAbsolute "./src" = false := by decide
  unfold pathResolve
  rw [habs]
  simp only [Bool.false_eq_true, if_false, hsplit]
  unfold normSegs
  rw [List.foldl_append, foldl_normStep_no_dots (splitPath dir) [] hnorm]
  simp only [List.nil_append, List.foldl_cons, List.foldl_nil]
  rw [show normStep (splitPath dir) "." = splitPath dir from by simp [normStep]]
  rw [show normStep (splitPath dir) "src" = splitPath dir ++ ["src"] from by
    simp [normStep]]
  rw [joinSegs_append_singleton (splitPath dir) hne "src"]
  conv_rhs => rw [hcanon]
  simp only [str_append_assoc]
  rw [show ("/" : String) ++ "src" = "/src" from by decide]

/-- Claim C1: for mode exactly `"development"`, the returned record has
`devOrigin == "http://localhost:5173"`, base path
`"http://localhost:5173/static/"`, and dev-server origin equal to
`devOrigin`. -/
theorem claim_C1 (d : String) :
    devOrigin "development" = "http://localhost:5173" ∧
    (viteConfig "development" d).base = "http://localhost:5173/static/" ∧
    (viteConfig "development" d).server.origin = devOrigin "development" :=
  ⟨rfl, rfl, rfl⟩

/-- Claim C2: for every mode string other than exactly `"development"`
(e.g. `"production"`, `""`, `"test"`, `"Development"`), the provider
returns `devOrigin == ""` and base path `"/static/"`. -/
theorem claim_C2 (m d : String) (h : m ≠ "development") :
    devOrigin m = "" ∧ (viteConfig m d).base = "/static/" := by
  have h0 : devOrigin m = "" := by simp [devOrigin, h]
  refine ⟨h0, ?_⟩
  show devOrigin m ++ "/static/" = "/static/"
  rw [h0]
  decide

/-- Witness for claim C2 at the near-miss mode `"Development"`. -/
theorem claim_C2_witness :
    devOrigin "Development" = "" ∧
    (viteConfig "Development" "/app").base = "/static/" :=
  claim_C2 "Development" "/app" (by decide)

/-- Claim C3: for every mode, the base path equals `devOrigin` followed
by `"/static/"`, the dev-server origin equals `devOrigin`, and
`devOrigin` is `"http://localhost:5173"` exactly when the mode is
`"development"` and `""` otherwise. -/
theorem claim_C3 (m d : String) :
    (viteConfig m d).base = devOrigin m ++ "/static/" ∧
    (viteConfig m d).server.origin = devOrigin m ∧
    devOrigin m = (if m = "development" then "http://localhost:5173" else "") := by
  refine ⟨rfl, rfl, ?_⟩
  by_cases h : m = "development" <;> simp [devOrigin, h]

/-- Claim C4: for every mode, the build block designates
`"./src/main.js"` as the entry point (via `rollupOptions.main`),
alongside `manifest = true`, output directory `"./dist/"`, and
`emptyOutDir = true`. -/
theorem claim_C4 (m d : String) :
    (viteConfig m d).build.rollupOptions.main = "./src/main.js" ∧
    (viteConfig m d).build.manifest = true ∧
    (viteConfig m d).build.outDir = "./dist/" ∧
    (viteConfig m d).build.emptyOutDir = true :=
  ⟨rfl, rfl, rfl, rfl⟩

/-- Claim C5: for every mode, the alias mapping binds `"@"` to the
absolute path of the `src` directory adjacent to the configuration
file, i.e. the file's own directory with the segment `src` appended
(for a directory in canonical absolute form). -/
theorem claim_C5 (m dir : String)
    (hnorm : ∀ s ∈ splitPath dir, s ≠ "." ∧ s ≠ "..")
    (hcanon : dir = "/" ++ joinSegs (splitPath dir))
    (hne : splitPath dir ≠ []) :
    (viteConfig m dir).resolve.«alias» = [("@", dir ++ "/src")] := by
  show [("@", pathResolve dir "./src")] = _
  rw [pathResolve_src dir hnorm hcanon hne]

/-- Witness for claim C5 at a concrete configuration-file directory. -/
theorem claim_C5_witness :
    (viteConfig "production" "/home/user/frontend").resolve.«alias»
      = [("@", "/home/user/frontend/src")] :=
  claim_C5 "production" "/home/user/frontend" (by decide) (by decide) (by decide)

/-- Claim C6: for every mode, the dev-server block has
`host == "localhost"`, `port == 5173` and `strictPort == true`,
independently of the mode. -/
theorem claim_C6 (m d : String) :
    (viteConfig m d).server.host = "localhost" ∧
    (viteConfig m d).server.port = 5173 ∧
    (viteConfig m d).server.strictPort = true :=
  ⟨rfl, rfl, rfl⟩

/-- Claim C7: for every mode, the build block has
`outDir == "./dist/"`, `manifest == true` and `emptyOutDir == true`,
independently of the mode. -/
theorem claim_C7 (m d : String) :
    (viteConfig m d).build.outDir = "./dist/" ∧
    (viteConfig m d).build.manifest = true ∧
    (viteConfig m d).build.emptyOutDir = true :=
  ⟨rfl, rfl, rfl⟩

/-- Claim C8: the provider is total: every mode yields a configuration
record, and any unrecognized mode falls through to the production
branch, i.e. produces the same record as mode `"production"`. -/
theorem claim_C8 (m d : String) :
    (∃ c : ViteConfig, viteConfig m d = c) ∧
    (m ≠ "development" → viteConfig m d = viteConfig "production" d) := by
  refine ⟨⟨viteConfig m d, rfl⟩, fun h => ?_⟩
  have h0 : devOrigin m = "" := by simp [devOrigin, h]
  have h1 : devOrigin "production" = "" := by decide
  show ViteConfig.mk (devOrigin m ++ "/static/") [tailwindcss]
      ⟨"localhost", 5173, true, devOrigin m⟩
      ⟨true, "./dist/", true, ⟨"./src/main.js"⟩⟩
      ⟨[("@", pathResolve d "./src")]⟩
    = ViteConfig.mk (devOrigin "production" ++ "/static/") [tailwindcss]
      ⟨"localhost", 5173, true, devOrigin "production"⟩
      ⟨true, "./dist/", true, ⟨"./src/main.js"⟩⟩
      ⟨[("@", pathResolve d "./src")]⟩
  rw [h0, h1]

/-- Witness for claim C8: the unrecognized mode `"test"` produces the
production record. -/
theorem claim_C8_witness :
    viteConfig "test" "/app" = viteConfig "production" "/app" :=
  (claim_C8 "test" "/app").2 (by decide)

/-- Claim C9: the provider is deterministic: two invocations with equal
inputs yield structurally equal configuration records. -/
theorem claim_C9 (m1 m2 d1 d2 : String) (hm : m1 = m2) (hd : d1 = d2) :
    viteConfig m1 d1 = viteConfig m2 d2 := by
  rw [hm, hd]

/-- Witness for claim C9 at the concrete mode `"development"`. -/
theorem claim_C9_witness :
    viteConfig "development" "/app" = viteConfig "development" "/app" :=
  claim_C9 "development" "development" "/app" "/app" rfl rfl

/-- Claim C10: the mode influences only the base path and the
dev-server origin: for any two modes, the records agree on the plugin
list, the server host, port and strictPort, the entire build block, and
the alias mapping. -/
theorem claim_C10 (m1 m2 d : String) :
    (viteConfig m1 d).plugins = (viteConfig m2 d).plugins ∧
    (viteConfig m1 d).server.host = (viteConfig m2 d).server.host ∧
    (viteConfig m1 d).server.port = (viteConfig m2 d).server.port ∧
    (viteConfig m1 d).server.strictPort = (viteConfig m2 d).server.strictPort ∧
    (viteConfig m1 d).build = (viteConfig m2 d).build ∧
    (viteConfig m1 d).resolve = (viteConfig m2 d).resolve :=
  ⟨rfl, rfl, rfl, rfl, rfl, rfl⟩

end ViteConfigSpec
